import Mathlib

/-!
Verification of the in-memory workflow graph editing engine of
`static/script.js` (Agent-Canvas).  The definitions below are a shallow
embedding of the editor state, the node/edge mutation handlers, the
mermaid diagram projection (`renderGraph`), the debounce-based autosave
scheduler and the save-status display logic.  Each theorem settles one
claim about the program.
-/

/-- A workflow node, as stored in `config.nodes`: an id, a type string
(the source uses the strings "llm", "python", "join") and an output key. -/
structure Node where
  id : String
  type : String
  output_key : String
deriving DecidableEq

/-- A workflow edge, as stored in `config.edges`. -/
structure Edge where
  source : String
  target : String
  conditional : Bool
deriving DecidableEq

/-- The `config` object of the current workflow. -/
structure Config where
  entry_point : String
  final_output_key : String
  nodes : List Node
  edges : List Edge

/-- Sparse string-keyed maps (`prompts`, `scripts`): JavaScript objects are
modelled as partial functions from keys to values. -/
def StrMap : Type := String → Option String

/-- The mutable editor state: the current workflow (its config and its
prompts/scripts maps) together with the `state.selectedPrompt` pointer. -/
structure EditorState where
  config : Config
  prompts : StrMap
  scripts : StrMap
  selectedPrompt : Option String

/-- Embeds the prompt/script key move of the rename handler:
`if (m[oldId] !== undefined) \x7b m[newId] = m[oldId]; delete m[oldId]; \x7d`
(the assignment to `newId` happens before the deletion of `oldId`). -/
def moveKey (m : StrMap) (oldId newId : String) : StrMap :=
  match m oldId with
  | none => m
  | some v =>
    let m1 : StrMap := fun k => if k = newId then some v else m k
    fun k => if k = oldId then none else m1 k

/-- Embeds the edge rewriting loop of the rename handler:
`if (edge.source === oldId) edge.source = newId;` then
`if (edge.target === oldId) edge.target = newId;`. -/
def renameEdge (oldId newId : String) (e : Edge) : Edge :=
  let e1 := if e.source = oldId then { e with source := newId } else e
  if e1.target = oldId then { e1 with target := newId } else e1

/-- Embeds the node-id rename branch of the `nodesList` change handler
(script.js lines 691-709): sets the node id, rewrites edges referencing
the old id, rewrites `entry_point`, moves the `prompts` and `scripts`
entries, and rewrites `selectedPrompt`.  The handler is a no-op when no
node exists at `index`. -/
def renameNodeAt (s : EditorState) (index : Nat) (newId : String) : EditorState :=
  match s.config.nodes[index]? with
  | none => s
  | some node =>
    let oldId := node.id
    { config :=
        { entry_point :=
            if s.config.entry_point = oldId then newId else s.config.entry_point
          final_output_key := s.config.final_output_key
          nodes := s.config.nodes.set index { node with id := newId }
          edges := s.config.edges.map (renameEdge oldId newId) }
      prompts := moveKey s.prompts oldId newId
      scripts := moveKey s.scripts oldId newId
      selectedPrompt :=
        if s.selectedPrompt = some oldId then some newId else s.selectedPrompt }

/-- Embeds the delete-node branch of the `nodesList` click handler
(script.js lines 646-660): splices the node out, filters out edges
incident to it, deletes its `prompts`/`scripts` entries, and resets
`selectedPrompt` if it pointed at the node.  Note: the handler does NOT
touch `entry_point`. -/
def removeNodeAt (s : EditorState) (index : Nat) : EditorState :=
  match s.config.nodes[index]? with
  | none => s
  | some node =>
    { config :=
        { entry_point := s.config.entry_point
          final_output_key := s.config.final_output_key
          nodes := s.config.nodes.eraseIdx index
          edges := s.config.edges.filter
            (fun e => e.source != node.id && e.target != node.id) }
      prompts := fun k => if k = node.id then none else s.prompts k
      scripts := fun k => if k = node.id then none else s.scripts k
      selectedPrompt :=
        if s.selectedPrompt = some node.id then none else s.selectedPrompt }

/-- Embeds the `add-node-btn` click handler (script.js lines 639-644):
pushes a node with id `node_<Date.now()>`, type `llm` and empty output
key.  `now` is the millisecond timestamp returned by `Date.now()`. -/
def addNode (s : EditorState) (now : Nat) : EditorState :=
  { s with config :=
      { s.config with nodes :=
          s.config.nodes ++ [{ id := "node_" ++ toString now
                               type := "llm"
                               output_key := "" }] } }

/-- Embeds `node.id.replace(/"/g, \x27#quot;\x27)` of `renderGraph`
(the regex pattern is the single character `"`, replaced globally). -/
def escapeQuotesList : List Char → List Char
  | [] => []
  | c :: cs =>
    if c = '"' then '#' :: 'q' :: 'u' :: 'o' :: 't' :: ';' :: escapeQuotesList cs
    else c :: escapeQuotesList cs

/-- String-level wrapper of `escapeQuotesList`. -/
def escapeQuotes (s : String) : String := String.mk (escapeQuotesList s.data)

/-- The statements `renderGraph` pushes for one node: a shape statement
built from the escaped id and a label that interpolates the RAW
`node.id`, plus a style statement for `python` nodes. -/
def nodeStatements (n : Node) : List String :=
  let nodeId := escapeQuotes n.id
  let nodeLabel := n.id ++ "<br/><i>(" ++ n.type ++ ")</i>"
  if n.type = "python" then
    ["  " ++ nodeId ++ "[\"" ++ nodeLabel ++ "\"]",
     "  style " ++ nodeId ++ " fill:#fff0e6,stroke:#ff9933,stroke-width:2px"]
  else if n.type = "join" then
    ["  " ++ nodeId ++ "\x7b\"" ++ nodeLabel ++ "\"\x7d"]
  else
    ["  " ++ nodeId ++ "[\"" ++ nodeLabel ++ "\"]"]

/-- The entry-point highlight statement `renderGraph` pushes when
`config.entry_point` is truthy; it interpolates the raw entry point. -/
def entryStyleStmt (ep : String) : String :=
  "  style " ++ ep ++ " fill:#e9f7ef,stroke:#27ae60,stroke-width:2px"

/-- The connector statement `renderGraph` pushes for one edge, from the
escaped source and target. -/
def edgeStatement (e : Edge) : String :=
  "  " ++ escapeQuotes e.source ++ " "
    ++ (if e.conditional then "-- 条件分岐 -->" else "-->") ++ " "
    ++ escapeQuotes e.target

/-- The full list of diagram statements `renderGraph` assembles, in push
order: the header, the per-node statements, the entry-point highlight
when `entry_point` is non-empty (JavaScript truthiness of a string), and
the edge connectors. -/
def graphDefinition (c : Config) : List String :=
  "graph TD" :: (c.nodes.flatMap nodeStatements
    ++ (if c.entry_point = "" then [] else [entryStyleStmt c.entry_point])
    ++ c.edges.map edgeStatement)

/-- Number of raw double-quote characters in a string. -/
def quoteCount (s : String) : Nat := s.data.count '"'

/-- An event hitting the autosave machinery: a `markDirty` signal
(`handleStateChange` calling `debouncedSave()`), or a manual save
(`saveWorkflow` invoked from the save button). -/
inductive Ev
  | signal (t : Nat)
  | manualSave (t : Nat)

/-- Embeds the debounce closure plus `saveWorkflow`, as a run over a
time-ordered event trace.  The state is the pending timer (the scheduled
fire time `t + wait` of the closure-captured `timeout`), and the output
is the list of times at which a persistence call is issued.  A `signal`
clears the pending timer (if it has not already fired) and schedules a
new one.  A `manualSave` issues a persistence call immediately, but its
`clearTimeout(debouncedSave)` passes a function rather than the timer
handle, which JavaScript ignores, so the pending timer is left in place.
A pending timer whose fire time has been reached fires before the next
event is processed, issuing a persistence call. -/
def runSched (wait : Nat) : Option Nat → List Ev → List Nat
  | some f, [] => [f]
  | none, [] => []
  | some f, Ev.signal t :: evs =>
    if f ≤ t then f :: runSched wait (some (t + wait)) evs
    else runSched wait (some (t + wait)) evs
  | none, Ev.signal t :: evs => runSched wait (some (t + wait)) evs
  | some f, Ev.manualSave t :: evs =>
    if f ≤ t then f :: t :: runSched wait none evs
    else t :: runSched wait (some f) evs
  | none, Ev.manualSave t :: evs => t :: runSched wait none evs

/-- The debounce window of `debouncedSave` (2000 ms in the source). -/
def debouncedSaveWait : Nat := 2000

/-- The save-status display: the text and CSS color of the
`save-status` element. -/
structure SaveStatus where
  text : String
  color : String
deriving DecidableEq

/-- The default color argument of `updateSaveStatus`. -/
def defaultStatusColor : String := "var(--secondary-color)"

/-- Embeds `updateSaveStatus(status, color)`. -/
def updateSaveStatus (text color : String) : SaveStatus :=
  { text := text, color := color }

/-- The status `handleStateChange` displays when the model changes. -/
def changeNoticeStatus : SaveStatus :=
  updateSaveStatus "変更あり（自動保存されます）" defaultStatusColor

/-- The status the failure branch of `saveWorkflow` displays. -/
def saveFailedStatus (msg : String) : SaveStatus :=
  updateSaveStatus ("保存失敗: " ++ msg) "var(--danger-color)"

/-- Embeds the 4-second status-clear timer of `saveWorkflow`: it clears
the status only when the current color is not the danger color. -/
def clearStatusTimer (s : SaveStatus) : SaveStatus :=
  if s.color ≠ "var(--danger-color)" then updateSaveStatus "" defaultStatusColor
  else s

/-- Concrete prompts map used by witnesses. -/
def exMap : StrMap := fun k => if k = "a" then some "PA" else none

/-- Concrete editor state used by witnesses and counterexamples: the example
graph of the spec (nodes `a` (llm) and `b` (join), one edge `a → b`,
entry point `a`), with a prompt stored under `a`. -/
def exState : EditorState :=
  { config := { entry_point := "a", final_output_key := "",
                nodes := [{ id := "a", type := "llm", output_key := "" },
                          { id := "b", type := "join", output_key := "" }],
                edges := [{ source := "a", target := "b", conditional := false }] }
    prompts := exMap
    scripts := fun _ => none
    selectedPrompt := some "a" }

/-- Concrete config whose entry point names no existing node. -/
def exGhostConfig : Config :=
  { entry_point := "ghost", final_output_key := "",
    nodes := [{ id := "a", type := "llm", output_key := "" }], edges := [] }

/-- Concrete editor state already holding a node named `node_5`. -/
def dupState : EditorState :=
  { config := { entry_point := "", final_output_key := "",
                nodes := [{ id := "node_5", type := "llm", output_key := "" }],
                edges := [] }
    prompts := fun _ => none
    scripts := fun _ => none
    selectedPrompt := none }

/-- Concrete editor state with no nodes at all. -/
def emptyState : EditorState :=
  { config := { entry_point := "", final_output_key := "", nodes := [], edges := [] }
    prompts := fun _ => none
    scripts := fun _ => none
    selectedPrompt := none }

/-- Concrete editor state with two llm nodes `a` and `b`, each holding a
prompt and a script entry. -/
def collState : EditorState :=
  { config := { entry_point := "", final_output_key := "",
                nodes := [{ id := "a", type := "llm", output_key := "" },
                          { id := "b", type := "llm", output_key := "" }],
                edges := [] }
    prompts := fun k => if k = "a" then some "PA" else if k = "b" then some "PB" else none
    scripts := fun k => if k = "a" then some "SA" else if k = "b" then some "SB" else none
    selectedPrompt := none }

/-- Concrete config with a node whose id contains a double quote. -/
def quoteConfig : Config :=
  { entry_point := "", final_output_key := "",
    nodes := [{ id := "a\"b", type := "llm", output_key := "" }], edges := [] }

/-- The rename handler rewrites an edge by checking source first, then
target; this is the simultaneous form of that rewrite. -/
theorem renameEdge_eq (oldId newId : String) (e : Edge) :
    renameEdge oldId newId e =
      { source := if e.source = oldId then newId else e.source
        target := if e.target = oldId then newId else e.target
        conditional := e.conditional } := by
  unfold renameEdge
  by_cases hs : e.source = oldId <;> by_cases ht : e.target = oldId <;>
    simp [hs, ht]

/-- Moving a present key to a distinct new key stores the value under the
new key and removes the old key. -/
theorem moveKey_spec (m : StrMap) (oldId newId t : String)
    (hne : oldId ≠ newId) (h : m oldId = some t) :
    moveKey m oldId newId newId = some t ∧ moveKey m oldId newId oldId = none := by
  constructor
  · simp [moveKey, h, Ne.symm hne]
  · simp [moveKey, h]


/-- Claim C1: for every workflow state containing a node with id `oldId`,
renaming it to a different `newId` leaves the edge count unchanged,
rewrites every edge whose source or target equals `oldId` to `newId`,
moves the prompts and scripts entries keyed `oldId` to `newId` with
identical text, rewrites `entry_point` to `newId` if it equaled `oldId`,
and rewrites the currently-selected-for-editing pointer to `newId` if it
equaled `oldId`; all effects are produced by the single operation
`renameNodeAt`, so no partially rewritten state is observable. -/
theorem C1_rename_propagates_atomically
    (s : EditorState) (i : Nat) (node : Node) (oldId newId : String)
    (hn : s.config.nodes[i]? = some node) (hid : node.id = oldId)
    (hne : oldId ≠ newId) :
    (renameNodeAt s i newId).config.edges.length = s.config.edges.length
    ∧ (∀ (j : Nat) (e : Edge), s.config.edges[j]? = some e →
        (renameNodeAt s i newId).config.edges[j]? =
          some { source := if e.source = oldId then newId else e.source
                 target := if e.target = oldId then newId else e.target
                 conditional := e.conditional })
    ∧ (∀ t, s.prompts oldId = some t →
        (renameNodeAt s i newId).prompts newId = some t
        ∧ (renameNodeAt s i newId).prompts oldId = none)
    ∧ (∀ t, s.scripts oldId = some t →
        (renameNodeAt s i newId).scripts newId = some t
        ∧ (renameNodeAt s i newId).scripts oldId = none)
    ∧ (s.config.entry_point = oldId →
        (renameNodeAt s i newId).config.entry_point = newId)
    ∧ (s.selectedPrompt = some oldId →
        (renameNodeAt s i newId).selectedPrompt = some newId) := by
  subst hid
  refine ⟨?_, ?_, ?_, ?_, ?_, ?_⟩
  · simp [renameNodeAt, hn]
  · intro j e he
    simp [renameNodeAt, hn, List.getElem?_map, he, renameEdge_eq]
  · intro t ht
    simpa [renameNodeAt, hn] using moveKey_spec s.prompts node.id newId t hne ht
  · intro t ht
    simpa [renameNodeAt, hn] using moveKey_spec s.scripts node.id newId t hne ht
  · intro hep
    simp [renameNodeAt, hn, hep]
  · intro hsel
    simp [renameNodeAt, hn, hsel]

/-- Witness for C1 at the spec example graph: renaming node `a` to
`start` rewrites the edge, the entry point, the prompt key and the
selection pointer in one step. -/
theorem C1_witness :
    exState.config.nodes[0]? = some { id := "a", type := "llm", output_key := "" }
    ∧ (renameNodeAt exState 0 "start").config.edges.length = exState.config.edges.length
    ∧ (renameNodeAt exState 0 "start").config.entry_point = "start"
    ∧ (renameNodeAt exState 0 "start").prompts "start" = some "PA"
    ∧ (renameNodeAt exState 0 "start").prompts "a" = none
    ∧ (renameNodeAt exState 0 "start").selectedPrompt = some "start" := by
  have h := C1_rename_propagates_atomically exState 0
    { id := "a", type := "llm", output_key := "" } "a" "start"
    (by decide) rfl (by decide)
  exact ⟨by decide, h.1, h.2.2.2.2.1 (by decide),
    (h.2.2.1 "PA" (by decide)).1, (h.2.2.1 "PA" (by decide)).2,
    h.2.2.2.2.2 (by decide)⟩

/-- Claim C2 counterexample: on the spec example graph with entry point
`a`, deleting node `a` (index 0) removes the node and its edge but the
entry point is left as `a`, which no longer names a present node and is
not the empty string — so the claim that `entryPoint` is cleared, and
that the entry-point invariant is preserved by node removal, is false. -/
theorem C2_counterexample :
    (removeNodeAt exState 0).config.entry_point = "a"
    ∧ (removeNodeAt exState 0).config.nodes.map Node.id = ["b"]
    ∧ (removeNodeAt exState 0).config.entry_point ≠ ""
    ∧ (∀ n ∈ (removeNodeAt exState 0).config.nodes,
        n.id ≠ (removeNodeAt exState 0).config.entry_point) := by
  decide

/-- Claim C2 amended: after removing the node at `index`, every edge
incident to it is removed and non-incident edges are kept, its
`prompts`/`scripts` keys are deleted, and the selection pointer is reset
if it referenced the node; but `entry_point` is left untouched even when
it equals the removed node's id, so the invariant that the entry point
references a present node is NOT restored by the removal handler. -/
theorem C2_remove_cascades_except_entry
    (s : EditorState) (i : Nat) (node : Node)
    (hn : s.config.nodes[i]? = some node) :
    (∀ e ∈ (removeNodeAt s i).config.edges, e.source ≠ node.id ∧ e.target ≠ node.id)
    ∧ (∀ e ∈ s.config.edges, e.source ≠ node.id → e.target ≠ node.id →
        e ∈ (removeNodeAt s i).config.edges)
    ∧ (removeNodeAt s i).prompts node.id = none
    ∧ (removeNodeAt s i).scripts node.id = none
    ∧ (removeNodeAt s i).config.entry_point = s.config.entry_point
    ∧ (s.selectedPrompt = some node.id → (removeNodeAt s i).selectedPrompt = none) := by
  refine ⟨?_, ?_, ?_, ?_, ?_, ?_⟩
  · intro e he
    simp [removeNodeAt, hn, List.mem_filter] at he
    exact ⟨he.2.1, he.2.2⟩
  · intro e he hs ht
    simp [removeNodeAt, hn, List.mem_filter]
    exact ⟨he, hs, ht⟩
  · simp [removeNodeAt, hn]
  · simp [removeNodeAt, hn]
  · simp [removeNodeAt, hn]
  · intro hsel
    simp [removeNodeAt, hn, hsel]

/-- Witness for C2 amended at the spec example graph: deleting node `b`
removes the incident edge, deletes key `b` from both maps, and keeps the
entry point `a`. -/
theorem C2_witness :
    exState.config.nodes[1]? = some { id := "b", type := "join", output_key := "" }
    ∧ (removeNodeAt exState 1).prompts "b" = none
    ∧ (removeNodeAt exState 1).scripts "b" = none
    ∧ (removeNodeAt exState 1).config.entry_point = exState.config.entry_point := by
  have h := C2_remove_cascades_except_entry exState 1
    { id := "b", type := "join", output_key := "" } (by decide)
  exact ⟨by decide, h.2.2.1, h.2.2.2.1, h.2.2.2.2.1⟩

/-- Claim C3 counterexample: on the spec example graph, renaming node `a`
(index 0) to the empty string does not fail and does not leave the model
unchanged — the rename is applied, producing a node with the empty id.
The rename handler contains no emptiness check and no error path. -/
theorem C3_counterexample :
    (renameNodeAt exState 0 "").config.nodes.map Node.id = ["", "b"]
    ∧ exState.config.nodes.map Node.id = ["a", "b"] := by
  decide

/-- Claim C3 amended: `renameNode` never fails for any `newId` — the
handler performs no validation at all, so the rename is applied even when
`newId` is the empty string or collides with an existing node id; the
node at `index` simply receives id `newId`. -/
theorem C3_rename_never_fails
    (s : EditorState) (i : Nat) (node : Node) (newId : String)
    (hn : s.config.nodes[i]? = some node) :
    (renameNodeAt s i newId).config.nodes[i]? = some { node with id := newId } := by
  have hi : i < s.config.nodes.length := by
    rcases List.getElem?_eq_some.mp hn with ⟨h, _⟩
    exact h
  simp [renameNodeAt, hn, List.getElem?_set_self hi]

/-- Witness for C3 amended: renaming node `a` of the spec example graph
to the empty string yields a node with empty id at index 0. -/
theorem C3_witness :
    exState.config.nodes[0]? = some { id := "a", type := "llm", output_key := "" }
    ∧ (renameNodeAt exState 0 "").config.nodes[0]? =
        some { id := "", type := "llm", output_key := "" } := by
  have h := C3_rename_never_fails exState 0
    { id := "a", type := "llm", output_key := "" } "" (by decide)
  exact ⟨by decide, h⟩

/-- Claim C4 counterexample: a state already holding a node named
`node_5` (for example after a user rename) combined with an `addNode`
whose `Date.now()` returns 5 produces two nodes with the same id — the
handler performs no detection or disambiguation against existing ids, so
node-id uniqueness is not preserved by every `addNode` call. -/
theorem C4_counterexample :
    (addNode dupState 5).config.nodes.map Node.id = ["node_5", "node_5"]
    ∧ ¬ ((addNode dupState 5).config.nodes.map Node.id).Nodup := by
  decide

/-- Claim C4 amended: `addNode` always succeeds and appends exactly one
node with id `node_<timestamp>`, kind llm and empty output key, with no
check against existing ids; id uniqueness is preserved only under the
extra assumption that no existing node already bears the generated id. -/
theorem C4_addNode_appends_timestamp_id
    (s : EditorState) (now : Nat)
    (hfresh : ("node_" ++ toString now) ∉ s.config.nodes.map Node.id)
    (hnd : (s.config.nodes.map Node.id).Nodup) :
    (addNode s now).config.nodes =
      s.config.nodes ++ [{ id := "node_" ++ toString now, type := "llm", output_key := "" }]
    ∧ ((addNode s now).config.nodes.map Node.id).Nodup := by
  constructor
  · rfl
  · simp only [addNode, List.map_append, List.map_cons, List.map_nil]
    simp [List.nodup_append, hnd, hfresh]

/-- Witness for C4 amended: adding a node to the empty workflow at
timestamp 0 appends `node_0` and keeps ids unique. -/
theorem C4_witness :
    ("node_" ++ toString 0) ∉ emptyState.config.nodes.map Node.id
    ∧ (emptyState.config.nodes.map Node.id).Nodup
    ∧ ((addNode emptyState 0).config.nodes.map Node.id).Nodup := by
  have h := C4_addNode_appends_timestamp_id emptyState 0 (by decide) (by decide)
  exact ⟨by decide, by decide, h.2⟩

/-- With a pending timer scheduled at `t + wait`, a chain of further
signals each arriving before the previous pending timer fires cancels
every earlier timer, so the only persistence call fires one debounce
window after the last signal. -/
theorem runSched_signal_chain (wait t : Nat) (ts : List Nat)
    (h : List.Chain (fun a b => a ≤ b ∧ b < a + wait) t ts) :
    runSched wait (some (t + wait)) (ts.map Ev.signal) = [ts.getLastD t + wait] := by
  induction ts generalizing t with
  | nil => simp [runSched]
  | cons t2 ts2 ih =>
    rcases List.chain_cons.mp h with ⟨⟨h1, h2⟩, h3⟩
    have hlt : ¬ (t + wait ≤ t2) := by omega
    simp only [List.map_cons, runSched, hlt, if_false, List.getLastD_cons]
    exact ih t2 h3

/-- Claim C5: for every sequence of `N ≥ 1` `markDirty` signals in which
each signal follows the previous one within less than the debounce
window, exactly one persistence call is issued, and it fires exactly one
debounce window after the last signal; every earlier pending timer is
cancelled (no other fire time appears in the output). -/
theorem C5_debounce_coalesces (wait t : Nat) (ts : List Nat)
    (h : List.Chain (fun a b => a ≤ b ∧ b < a + wait) t ts) :
    runSched wait none ((t :: ts).map Ev.signal) = [ts.getLastD t + wait] := by
  simp only [List.map_cons, runSched]
  exact runSched_signal_chain wait t ts h

/-- Witness for C5: three signals at 0, 1000 and 1500 ms with the 2000 ms
window of `debouncedSave` issue a single persistence call at 3500 ms. -/
theorem C5_witness :
    List.Chain (fun a b => a ≤ b ∧ b < a + debouncedSaveWait) 0 [1000, 1500]
    ∧ runSched debouncedSaveWait none ([0, 1000, 1500].map Ev.signal) = [3500] := by
  have hch : List.Chain (fun a b => a ≤ b ∧ b < a + debouncedSaveWait) 0 [1000, 1500] :=
    List.Chain.cons (by decide) (List.Chain.cons (by decide) List.Chain.nil)
  constructor
  · exact hch
  · have h := C5_debounce_coalesces debouncedSaveWait 0 [1000, 1500] hch
    rw [h]
    decide

/-- Claim C6 (the code contradicts its own comment): `saveWorkflow` runs
`clearTimeout(debouncedSave)`, but `debouncedSave` is the debounced
function, not the timer handle captured inside the `debounce` closure,
so the call is a no-op and the pending debounce timer is NOT cancelled.
With the 2000 ms window, a signal at 0 ms followed by a manual save at
1000 ms issues TWO persistence calls — the manual one at 1000 ms and the
supposedly superseded debounce-scheduled one, which still fires at
2000 ms. -/
theorem C6_manual_save_does_not_cancel_debounce :
    runSched debouncedSaveWait none [Ev.signal 0, Ev.manualSave 1000] = [1000, 2000]
    ∧ (runSched debouncedSaveWait none [Ev.signal 0, Ev.manualSave 1000]).length ≠ 1 := by
  decide

/-- Claim C7 counterexample: the 4-second clear-status timer guard only
compares the current color against the danger color, so a more recent
change notification (displayed by `handleStateChange` in the secondary
color after a save completed) IS erased by the auto-decay path — the
claim that no more recent change notification is overwritten is false. -/
theorem C7_counterexample :
    clearStatusTimer changeNoticeStatus ≠ changeNoticeStatus
    ∧ (clearStatusTimer changeNoticeStatus).text = ""
    ∧ changeNoticeStatus.text ≠ "" := by
  decide

/-- Claim C7 amended: the clear-status timer compares only the color of
the current status against the danger color before clearing, so a FAILED
status (danger color, error message retained) is never erased by it, but
every non-danger status — including a more recent change notification —
is cleared to the empty status. -/
theorem C7_clear_timer_spares_only_danger (s : SaveStatus) (msg : String) :
    clearStatusTimer (saveFailedStatus msg) = saveFailedStatus msg
    ∧ (s.color ≠ "var(--danger-color)" →
        clearStatusTimer s = updateSaveStatus "" defaultStatusColor) := by
  constructor
  · simp [clearStatusTimer, saveFailedStatus, updateSaveStatus]
  · intro h
    simp [clearStatusTimer, h]

/-- Witness for C7 amended: a failed-save status survives the timer,
while the change notification is cleared. -/
theorem C7_witness :
    clearStatusTimer (saveFailedStatus "boom") = saveFailedStatus "boom"
    ∧ changeNoticeStatus.color ≠ "var(--danger-color)"
    ∧ clearStatusTimer changeNoticeStatus = updateSaveStatus "" defaultStatusColor := by
  have h := C7_clear_timer_spares_only_danger changeNoticeStatus "boom"
  exact ⟨h.1, by decide, h.2 (by decide)⟩

/-- The escaped form of a string contains no double-quote character. -/
theorem count_quote_escapeQuotesList (l : List Char) :
    (escapeQuotesList l).count '"' = 0 := by
  induction l with
  | nil => rfl
  | cons c cs ih =>
    by_cases h : c = '"' <;> simp [escapeQuotesList, h, ih, List.count_cons]

/-- Quote counting distributes over string concatenation. -/
theorem quoteCount_append (s t : String) :
    quoteCount (s ++ t) = quoteCount s + quoteCount t := by
  simp [quoteCount, String.data_append, List.count_append]

/-- Quote counting of an escaped identifier is zero. -/
theorem quoteCount_escapeQuotes (s : String) : quoteCount (escapeQuotes s) = 0 := by
  simpa [quoteCount, escapeQuotes] using count_quote_escapeQuotesList s.data

/-- Claim C8 counterexample: for the node id `a"b` the produced shape
statement escapes the identifier position but interpolates the RAW id
into the label, so the statement contains three double quotes — the two
label delimiters plus a raw `"` inside the label payload — instead of
the two delimiters a fully escaped output would contain. -/
theorem C8_counterexample :
    graphDefinition quoteConfig =
      ["graph TD", "  a#quot;b[\"a\"b<br/><i>(llm)</i>\"]"]
    ∧ quoteCount "  a#quot;b[\"a\"b<br/><i>(llm)</i>\"]" = 3
    ∧ quoteCount (escapeQuotes "a\"b") = 0 := by
  decide

/-- Claim C8 amended: the projector escapes the quote character only
where the identifier is embedded as a mermaid node identifier or edge
endpoint; the node label interpolates the raw id, so the statements of a
node carry exactly the two label-delimiter quotes plus one raw quote per
quote character of the id, while edge connector statements carry none. -/
theorem C8_label_embeds_raw_quotes (n : Node) (e : Edge)
    (htype : n.type = "llm" ∨ n.type = "python" ∨ n.type = "join") :
    ((nodeStatements n).map quoteCount).sum = 2 + quoteCount n.id
    ∧ quoteCount (edgeStatement e) = 0 := by
  have l1 : quoteCount "  " = 0 := by decide
  have l2 : quoteCount "[\"" = 1 := by decide
  have l3 : quoteCount "\x7b\"" = 1 := by decide
  have l4 : quoteCount "\"]" = 1 := by decide
  have l5 : quoteCount "\"\x7d" = 1 := by decide
  have l6 : quoteCount "<br/><i>(" = 0 := by decide
  have l7 : quoteCount ")</i>" = 0 := by decide
  have l8 : quoteCount "llm" = 0 := by decide
  have l9 : quoteCount "python" = 0 := by decide
  have l10 : quoteCount "join" = 0 := by decide
  have l11 : quoteCount "  style " = 0 := by decide
  have l12 : quoteCount " fill:#fff0e6,stroke:#ff9933,stroke-width:2px" = 0 := by decide
  constructor
  · rcases htype with h | h | h <;>
      simp [nodeStatements, h, quoteCount_append, quoteCount_escapeQuotes,
        l1, l2, l3, l4, l5, l6, l7, l8, l9, l10, l11, l12] <;>
      omega
  · rcases he : e.conditional <;>
      simp [edgeStatement, he, quoteCount_append, quoteCount_escapeQuotes] <;>
      decide

/-- Witness for C8 amended: the llm node with id `a"b` yields statements
holding three quotes in total (two delimiters plus one raw quote from the
id), and a plain edge connector holds none. -/
theorem C8_witness :
    ((nodeStatements { id := "a\"b", type := "llm", output_key := "" }).map quoteCount).sum
      = 2 + quoteCount "a\"b"
    ∧ quoteCount (edgeStatement { source := "a", target := "b", conditional := false }) = 0 :=
  C8_label_embeds_raw_quotes
    { id := "a\"b", type := "llm", output_key := "" }
    { source := "a", target := "b", conditional := false } (Or.inl rfl)

/-- Claim C9 counterexample: with one node `a` and entry point `ghost`,
which names no existing node, the projector still emits the highlighted
style statement (naming `ghost`) — so the claim that a highlight
statement is emitted exactly when some node's id matches the entry point
is false. -/
theorem C9_counterexample :
    entryStyleStmt "ghost" ∈ graphDefinition exGhostConfig
    ∧ (∀ n ∈ exGhostConfig.nodes, n.id ≠ exGhostConfig.entry_point) := by
  decide

/-- Claim C9 amended: the highlighted-style statement is emitted exactly
when `entry_point` is non-empty — no matching against existing node ids
is performed; it names `entry_point` verbatim and sits directly after all
node statements (and before all edge statements); and every node emits
exactly one shape statement (python nodes add one extra style statement). -/
theorem C9_highlight_iff_nonempty_entry (c : Config) :
    (c.entry_point ≠ "" →
      (graphDefinition c)[(c.nodes.flatMap nodeStatements).length + 1]? =
        some (entryStyleStmt c.entry_point)
      ∧ (graphDefinition c).length =
          (c.nodes.flatMap nodeStatements).length + c.edges.length + 2)
    ∧ (c.entry_point = "" →
      (graphDefinition c).length =
        (c.nodes.flatMap nodeStatements).length + c.edges.length + 1)
    ∧ (∀ n : Node, (nodeStatements n).length = if n.type = "python" then 2 else 1) := by
  refine ⟨?_, ?_, ?_⟩
  · intro hep
    constructor
    · simp only [graphDefinition, if_neg hep, List.getElem?_cons_succ]
      rw [List.getElem?_append, if_pos (by simp)]
      exact List.getElem?_concat_length _ _
    · simp [graphDefinition, hep]
      omega
  · intro hep
    simp [graphDefinition, hep]
  · intro n
    by_cases h1 : n.type = "python"
    · simp [nodeStatements, h1]
    · by_cases h2 : n.type = "join" <;> simp [nodeStatements, h1, h2]

/-- Witness for C9 amended: on the ghost-entry config the highlight
statement occupies the slot right after the single node statement, and an
llm node emits exactly one statement. -/
theorem C9_witness :
    exGhostConfig.entry_point ≠ ""
    ∧ (graphDefinition exGhostConfig)[(exGhostConfig.nodes.flatMap nodeStatements).length + 1]? =
        some (entryStyleStmt "ghost")
    ∧ (nodeStatements { id := "a", type := "llm", output_key := "" }).length = 1 := by
  have h := C9_highlight_iff_nonempty_entry exGhostConfig
  exact ⟨by decide, (h.1 (by decide)).1,
    by simpa using h.2.2 { id := "a", type := "llm", output_key := "" }⟩

/-- Claim C10: when a node with id `oldId` is renamed to the id `newId`
of a different existing node that already holds a prompt or script
entry, the entry moved from `oldId` overwrites the colliding node's
entry: afterwards the map yields oldId's text under `newId` and `oldId`
is gone from the map. -/
theorem C10_rename_overwrites_colliding_entry
    (s : EditorState) (i : Nat) (node : Node) (oldId newId : String)
    (hn : s.config.nodes[i]? = some node) (hid : node.id = oldId)
    (hne : oldId ≠ newId)
    (_hcoll : ∃ (j : Nat) (node2 : Node), j ≠ i ∧ s.config.nodes[j]? = some node2
      ∧ node2.id = newId) :
    (∀ tOld tNew : String, s.prompts oldId = some tOld → s.prompts newId = some tNew →
      (renameNodeAt s i newId).prompts newId = some tOld
      ∧ (renameNodeAt s i newId).prompts oldId = none)
    ∧ (∀ tOld tNew : String, s.scripts oldId = some tOld → s.scripts newId = some tNew →
      (renameNodeAt s i newId).scripts newId = some tOld
      ∧ (renameNodeAt s i newId).scripts oldId = none) := by
  subst hid
  constructor
  · intro tOld tNew hOld hNew
    simpa [renameNodeAt, hn] using moveKey_spec s.prompts node.id newId tOld hne hOld
  · intro tOld tNew hOld hNew
    simpa [renameNodeAt, hn] using moveKey_spec s.scripts node.id newId tOld hne hOld

/-- Witness for C10: renaming node `a` to the existing id `b` moves
prompt `PA` onto key `b`, replacing `PB`, and removes key `a`; likewise
for the scripts map. -/
theorem C10_witness :
    collState.prompts "a" = some "PA"
    ∧ collState.prompts "b" = some "PB"
    ∧ (renameNodeAt collState 0 "b").prompts "b" = some "PA"
    ∧ (renameNodeAt collState 0 "b").prompts "a" = none
    ∧ (renameNodeAt collState 0 "b").scripts "b" = some "SA"
    ∧ (renameNodeAt collState 0 "b").scripts "a" = none := by
  have h := C10_rename_overwrites_colliding_entry collState 0
    { id := "a", type := "llm", output_key := "" } "a" "b"
    (by decide) rfl (by decide)
    ⟨1, { id := "b", type := "llm", output_key := "" }, by decide, by decide, rfl⟩
  exact ⟨by decide, by decide,
    (h.1 "PA" "PB" (by decide) (by decide)).1,
    (h.1 "PA" "PB" (by decide) (by decide)).2,
    (h.2 "SA" "SB" (by decide) (by decide)).1,
    (h.2 "SA" "SB" (by decide) (by decide)).2⟩
